import Mathlib

set_option maxHeartbeats 1000000

/-!
Shallow embedding of the upgrade-safety decision engine in
`pkg/daemon/ceph/client/upgrade.go` (rook).

External cluster queries (the `ceph` command runs, the osd tree query, the
mds health probe) are modelled as fields of an environment record
`UpgradeEnv`: each field holds the result the external collaborator would
return.  Go maps whose enumeration order matters are modelled as association
lists; Go `int` and `time.Duration` are modelled as `Int` (a duration counts
nanoseconds, as in Go).  Functions that issue external commands additionally
return the list of commands issued (`CephEvent`), so that claims of the form
"no per-instance probe is issued" can be stated about the trace.
-/

/-- One second in nanoseconds, Go constant `time.Second` of type `time.Duration`. -/
def timeSecond : Int := 1000000000

/-- Constant `defaultMaxRetries = 10` of `upgrade.go`. -/
def defaultMaxRetries : Int := 10

/-- Constant `defaultRetryDelay = 60 * time.Second` of `upgrade.go`. -/
def defaultRetryDelay : Int := 60 * timeSecond

/-- Constant `defaultOSDRetryDelay = 10 * time.Second` of `upgrade.go`. -/
def defaultOSDRetryDelay : Int := 10 * timeSecond

/-- The slice of the Go `ClusterInfo` that `upgrade.go` reads: the configured
OSD upgrade timeout, a Go `time.Duration` (nanoseconds). -/
structure ClusterInfo where
  osdUpgradeTimeout : Int := 0
deriving DecidableEq

/-- Struct `CephDaemonsVersions` of `upgrade.go`: the decoded output of
`ceph versions`.  Go maps `map[string]int` from version string to instance
count are modelled as association lists, so that the enumeration order the
code relies on ("the first one is always the least up-to-date") is explicit. -/
structure CephDaemonsVersions where
  mon : List (String × Int) := []
  mgr : List (String × Int) := []
  osd : List (String × Int) := []
  rgw : List (String × Int) := []
  mds : List (String × Int) := []
  rbdMirror : List (String × Int) := []
  overall : List (String × Int) := []
deriving DecidableEq

/-- Variable `daemonNoCheck` of `upgrade.go`: daemons with no `ok-to-stop`
command implemented, on which no per-instance check is performed. -/
def daemonNoCheck : List String := ["mgr", "rgw", "rbd-mirror", "nfs"]

/-- Modelled from the spec: the structured, comparable cluster version
(`cephver.CephVersion`, whose source is not among the provided files) —
"major/minor/patch" components of a parsed version-identifier string.  The
release codename the spec also mentions is omitted: no claim inspects it.
The Go zero value is all-zero components, the record's defaults. -/
structure CephVersion where
  major : Nat := 0
  minor : Nat := 0
  extra : Nat := 0
deriving DecidableEq

/-- One node of the Go `OsdTree` structure (its source file is not among the
provided ones; shape taken from the field accesses in `upgrade.go`): a type
tag (`host`, `osd`, ...) and the list of direct child node ids. -/
structure OsdTreeNode where
  id : Int := 0
  name : String := ""
  typ : String := ""
  children : List Int := []
deriving DecidableEq

/-- The Go `OsdTree` structure: a nilable slice of nodes (Go distinguishes a
nil `Nodes` slice, which `buildHostListFromTree` rejects, from an empty one)
plus the stray list of osds not attached to any host. -/
structure OsdTree where
  nodes : Option (List OsdTreeNode) := none
  stray : List Int := []
deriving DecidableEq

/-- Length-compatible view of the nilable `Nodes` slice: Go `len` of a nil
slice is 0. -/
def OsdTree.nodeList (t : OsdTree) : List OsdTreeNode := t.nodes.getD []

/-- External commands issued by the engine, recorded as a trace. -/
inductive CephEvent where
  | versionsQuery : CephEvent
  | osdListQuery : CephEvent
  | hostTreeQuery : CephEvent
  | okToStopQuery : String → String → CephEvent
  | fsProbe : String → CephEvent
deriving DecidableEq

/-- The environment of external collaborators a decision call runs against:
each field is the result the corresponding remote query would return.  The
per-instance `ok-to-stop` command and the mds health probe take the attempt
index, so results may differ between retry attempts. -/
structure UpgradeEnv where
  clusterInfo : ClusterInfo := {}
  versions : Except String CephDaemonsVersions := .error "unreachable"
  osdList : Except String (List Int) := .error "unreachable"
  hostTree : Except String OsdTree := .error "unreachable"
  okToStopCmd : Nat → String → String → Except String String := fun _ _ _ => .ok ""
  mdsProbe : Nat → String → Except String Unit := fun _ _ => .ok ()

/-- Error wrapping in the style of `errors.Wrap(err, ctx)`: the message is
the context, a colon, and the wrapped error's message. -/
def wrapErr (ctx msg : String) : String := ctx ++ ": " ++ msg

/-- Function `StringInSlice` of `upgrade.go`: whether an element is in a slice. -/
def StringInSlice (a : String) : List String → Bool
  | [] => false
  | b :: rest => if b == a then true else StringInSlice a rest

/-- Function `findFSName` of `upgrade.go`: strip the fixed deployment-name
leading part `rook-ceph-mds-` as Go `strings.TrimPrefix` does (the string is
returned unchanged when it does not start with it). -/
def findFSName (deployment : String) : String :=
  if "rook-ceph-mds-".isPrefixOf deployment then
    deployment.drop "rook-ceph-mds-".length
  else
    deployment

/-- Function `getRetryConfig` of `upgrade.go`: daemon type to (retry count,
delay).  The osd retry count is the configured timeout integer-divided by the
osd retry delay, Go `int64` division truncating toward zero (`Int.tdiv`). -/
def getRetryConfig (clusterInfo : ClusterInfo) (daemonType : String) : Int × Int :=
  if daemonType == "osd" then
    (Int.tdiv clusterInfo.osdUpgradeTimeout defaultOSDRetryDelay, defaultOSDRetryDelay)
  else if daemonType == "mds" then
    (defaultMaxRetries, 15 * timeSecond)
  else
    (defaultMaxRetries, defaultRetryDelay)

/-- Function `daemonMapEntry` of `upgrade.go`: select the version mapping of
the requested daemon type from the decoded `ceph versions` output. -/
def daemonMapEntry (versions : CephDaemonsVersions) (daemonType : String) :
    Except String (List (String × Int)) :=
  if daemonType == "mon" then .ok versions.mon
  else if daemonType == "mgr" then .ok versions.mgr
  else if daemonType == "mds" then .ok versions.mds
  else if daemonType == "osd" then .ok versions.osd
  else if daemonType == "rgw" then .ok versions.rgw
  else if daemonType == "mirror" then .ok versions.rbdMirror
  else .error ("invalid daemonType " ++ daemonType)

/-- Accumulator loop of `digitsToNat`. -/
def digitsToNatAux : List Char → Nat → Option Nat
  | [], acc => some acc
  | c :: cs, acc => if c.isDigit then digitsToNatAux cs (10 * acc + (c.toNat - 48)) else none

/-- Decimal value of a non-empty all-digit character list; anything else
fails. -/
def digitsToNat : List Char → Option Nat
  | [] => none
  | l => digitsToNatAux l 0

/-- Character-level splitting on a separator (the list of fragments between
occurrences of `sep`). -/
def splitOnChar (sep : Char) : List Char → List (List Char)
  | [] => [[]]
  | c :: cs =>
    let r := splitOnChar sep cs
    if c == sep then [] :: r
    else
      match r with
      | [] => [[c]]
      | h :: t => (c :: h) :: t

/-- The suffix following the first occurrence of `pat`, if `pat` occurs. -/
def dropThrough (pat : List Char) : List Char → Option (List Char)
  | [] => none
  | c :: cs =>
    if pat.isPrefixOf (c :: cs) then some ((c :: cs).drop pat.length)
    else dropThrough pat cs

/-- Modelled from the spec: the version-string parser collaborator
(`cephver.ExtractCephVersion`, whose source is not among the provided files):
a deterministic parse of a well-formed version-identifier string such as
`ceph version 13.2.5 (cbff...) mimic (stable)` into its major/minor/patch
components; a malformed string fails the parse rather than producing a zero
value.  Implemented over character lists by structural recursion (the
helpers above), so that concrete parses compute. -/
def extractCephVersion (s : String) : Except String CephVersion :=
  match dropThrough "ceph version ".toList s.toList with
  | none => .error "failed to parse ceph version"
  | some rest =>
    let numPart := rest.takeWhile (fun c => c != ' ')
    match splitOnChar '.' numPart with
    | [ma, mi, tail] =>
      match digitsToNat ma, digitsToNat mi,
          digitsToNat (tail.takeWhile (fun c => c != '-')) with
      | some major, some minor, some extra => .ok { major, minor, extra }
      | _, _, _ => .error "failed to parse ceph version"
    | _ => .error "failed to parse ceph version"

/-- Function `LeastUptodateDaemonVersion` of `upgrade.go`: fetch the version
inventory, select the mapping of the daemon type, and return the parsed form
of the first enumerated entry ("the first one is always the least
up-to-date"); with an empty mapping the loop never runs and the zero-value
version is returned with no error. -/
def LeastUptodateDaemonVersion (env : UpgradeEnv) (daemonType : String) :
    Except String CephVersion :=
  match env.versions with
  | .error e => .error (wrapErr "failed to get ceph daemons versions" e)
  | .ok versions =>
    match daemonMapEntry versions daemonType with
    | .error e => .error (wrapErr "failed to find daemon map entry" e)
    | .ok r =>
      match r with
      | [] => .ok {}
      | (v, _) :: _ =>
        match extractCephVersion v with
        | .error e => .error (wrapErr "failed to extract ceph version" e)
        | .ok version => .ok version

/-- Function `buildHostListFromTree` of `upgrade.go`: the sub-tree of nodes
of type `host`; a nil `Nodes` slice is rejected as unpopulated. -/
def buildHostListFromTree (tree : OsdTree) : Except String OsdTree :=
  match tree.nodes with
  | none => .error "osd tree not populated, missing nodes field"
  | some ns => .ok { nodes := some (ns.filter (fun t => t.typ == "host")), stray := [] }

/-- Function `allOSDsSameHost` of `upgrade.go`: succeed with `true` exactly
when the crush tree has a single host node whose direct child count equals
the total osd count minus the stray count; error when the tree has no host
node at all.  The trace records the osd tree and osd list queries. -/
def allOSDsSameHost (env : UpgradeEnv) : Except String Bool × List CephEvent :=
  match env.hostTree with
  | .error e => (.error (wrapErr "failed to get the osd tree" e), [.hostTreeQuery])
  | .ok tree =>
    match env.osdList with
    | .error e =>
      (.error (wrapErr "failed to get the osd list" e), [.hostTreeQuery, .osdListQuery])
    | .ok osds =>
      match buildHostListFromTree tree with
      | .error e =>
        (.error (wrapErr "failed to build osd tree" e), [.hostTreeQuery, .osdListQuery])
      | .ok hostOsdTree =>
        match hostOsdTree.nodeList with
        | [] => (.error "no host in crush map yet?", [.hostTreeQuery, .osdListQuery])
        | [h] =>
          if (h.children.length : Int) == (osds.length : Int) - (tree.stray.length : Int) then
            (.ok true, [.hostTreeQuery, .osdListQuery])
          else
            (.ok false, [.hostTreeQuery, .osdListQuery])
        | _ => (.ok false, [.hostTreeQuery, .osdListQuery])

/-- Function `osdDoNothing` of `upgrade.go`: `true` when the upgrade
pre-check should be skipped — fewer than 3 osds, or all osds on one host; a
failed osd list query or a failed same-host determination yields `false`
(the check still runs). -/
def osdDoNothing (env : UpgradeEnv) : Bool × List CephEvent :=
  match env.osdList with
  | .error _ => (false, [.osdListQuery])
  | .ok osds =>
    if osds.length < 3 then
      (true, [.osdListQuery])
    else
      match allOSDsSameHost env with
      | (.error _, evs) => (false, .osdListQuery :: evs)
      | (.ok aio, evs) => (aio, .osdListQuery :: evs)

/-- Modelled from the spec: the generic bounded retry primitive
(`util.Retry`, whose source is not among the provided files) — given an
attempt budget and a probe, return nil on the first success, or the last
error after exhausting the attempts.  The probe receives the attempt index
(so the environment can answer differently per attempt) and the events of
every attempt made are concatenated into the trace. -/
def retryT (f : Nat → Except String Unit × List CephEvent) :
    Nat → Nat → Except String Unit × List CephEvent
  | _, 0 => (.error "retries exhausted", [])
  | start, n + 1 =>
    match f start with
    | (.ok _, evs) => (.ok (), evs)
    | (.error e, evs) =>
      match n with
      | 0 => (.error e, evs)
      | m + 1 =>
        let r := retryT f (start + 1) (m + 1)
        (r.fst, evs ++ r.snd)

/-- Function `okToStopDaemon` of `upgrade.go`: for daemon types outside
`daemonNoCheck`, issue the `<type> ok-to-stop <name>` command and propagate
its failure; for the no-check types do nothing and succeed. -/
def okToStopDaemon (env : UpgradeEnv) (attempt : Nat)
    (deployment daemonType daemonName : String) : Except String Unit × List CephEvent :=
  if !StringInSlice daemonType daemonNoCheck then
    match env.okToStopCmd attempt daemonType daemonName with
    | .error e =>
      (.error (wrapErr ("deployment " ++ deployment ++ " cannot be stopped") e),
       [.okToStopQuery daemonType daemonName])
    | .ok _ => (.ok (), [.okToStopQuery daemonType daemonName])
  else
    (.ok (), [])

/-- The daemon-type switch inside `OkToStop` of `upgrade.go`, as a named
function: `true` means short-circuit to success.  For `mon`, a mapping with
exactly one version entry whose count is below 3 short-circuits (initial
bootstrap); for `osd`, `osdDoNothing` decides; no other type has a
pre-filter. -/
def okToStopPreFilter (env : UpgradeEnv) (versions : CephDaemonsVersions)
    (daemonType : String) : Bool × List CephEvent :=
  if daemonType == "mon" then
    match versions.mon with
    | [(_, monCount)] => (decide (monCount < 3), [])
    | _ => (false, [])
  else if daemonType == "osd" then
    osdDoNothing env
  else
    (false, [])

/-- Function `OkToStop` of `upgrade.go`: compute the retry policy, fetch the
version inventory (propagating its failure), apply the mon/osd pre-filters
(single mon version with count below 3, or `osdDoNothing`, short-circuit to
success), otherwise run the per-instance probe under the retry policy and
wrap an exhausted budget naming the deployment. -/
def OkToStop (env : UpgradeEnv) (deployment daemonType daemonName : String) :
    Except String Unit × List CephEvent :=
  let rc := getRetryConfig env.clusterInfo daemonType
  match env.versions with
  | .error e => (.error (wrapErr "failed to get ceph daemons versions" e), [.versionsQuery])
  | .ok versions =>
    match okToStopPreFilter env versions daemonType with
    | (true, evs) => (.ok (), .versionsQuery :: evs)
    | (false, evs) =>
      match retryT (fun attempt => okToStopDaemon env attempt deployment daemonType daemonName)
          0 rc.fst.toNat with
      | (.ok _, evs2) => (.ok (), .versionsQuery :: (evs ++ evs2))
      | (.error e, evs2) =>
        (.error (wrapErr ("failed to check if " ++ deployment ++ " was ok to stop") e),
         .versionsQuery :: (evs ++ evs2))

/-- Function `okToContinueMDSDaemon` of `upgrade.go`: wait, under the mds
retry policy, for the mds fleet of the filesystem named by the deployment
(prefix-stripped) to be active or in standby-replay; the probe itself
(`MdsActiveOrStandbyReplay`, whose source is not among the provided files)
is the environment's `mdsProbe` field, modelled from the spec as a
healthy/not-healthy answer for a filesystem name.  `mdsProbeStep` is one
polled attempt, recorded in the trace. -/
def mdsProbeStep (env : UpgradeEnv) (deployment : String) (attempt : Nat) :
    Except String Unit × List CephEvent :=
  match env.mdsProbe attempt (findFSName deployment) with
  | .ok _ => (.ok (), [.fsProbe (findFSName deployment)])
  | .error e => (.error e, [.fsProbe (findFSName deployment)])

def okToContinueMDSDaemon (env : UpgradeEnv)
    (deployment _daemonType _daemonName : String) : Except String Unit × List CephEvent :=
  let rc := getRetryConfig env.clusterInfo "mds"
  retryT (mdsProbeStep env deployment) 0 rc.fst.toNat

/-- Function `OkToContinue` of `upgrade.go`: only the mds case checks
anything (wrapping its failure naming the deployment); every other daemon
type succeeds immediately. -/
def OkToContinue (env : UpgradeEnv) (deployment daemonType daemonName : String) :
    Except String Unit × List CephEvent :=
  if daemonType == "mds" then
    match okToContinueMDSDaemon env deployment daemonType daemonName with
    | (.error e, evs) =>
      (.error (wrapErr ("failed to check if " ++ deployment ++ " was ok to continue") e), evs)
    | (.ok _, evs) => (.ok (), evs)
  else
    (.ok (), [])

/-! Concrete cluster snapshots, used by the witnesses below. -/

/-- A mimic 13.2.5 version-identifier string as reported by `ceph versions`. -/
def monStr1 : String :=
  "ceph version 13.2.5 (cbff874f9007f1869bfd3821b7e33b2a6ffd4988) mimic (stable)"

/-- A nautilus 14.2.0 version-identifier string as reported by `ceph versions`. -/
def monStr2 : String :=
  "ceph version 14.2.0 (3a54b2b6d167d4a2a19e003a705696d4fe619afc) nautilus (stable)"

/-- The two-version mon inventory from the comment on
`LeastUptodateDaemonVersion` in `upgrade.go`. -/
def sampleVersions : CephDaemonsVersions := { mon := [(monStr1, 1), (monStr2, 2)] }

/-- An environment whose inventory fetch succeeds with `sampleVersions`. -/
def sampleEnv : UpgradeEnv := { versions := .ok sampleVersions }

/-- An environment reporting a single mon version held by 2 monitors. -/
def envMonSmall : UpgradeEnv := { versions := .ok { mon := [(monStr1, 2)] } }

/-- An environment reporting a single mon version held by 5 monitors. -/
def envMonBig : UpgradeEnv := { versions := .ok { mon := [(monStr1, 5)] } }

/-- An environment whose inventory fetch fails. -/
def envFetchFail : UpgradeEnv := { versions := .error "remote query failed" }

/-- A crush host node with three osd children. -/
def sampleHost : OsdTreeNode := { id := -1, name := "host0", typ := "host", children := [0, 1, 2] }

/-- A crush tree with a single host carrying every osd and no strays. -/
def sampleTree : OsdTree := { nodes := some [sampleHost], stray := [] }

/-- An all-in-one osd environment: three osds, all under one host. -/
def envOsd : UpgradeEnv :=
  { versions := .ok sampleVersions, osdList := .ok [0, 1, 2], hostTree := .ok sampleTree }

/-- An environment whose mds health probe never reports healthy. -/
def envMds : UpgradeEnv := { mdsProbe := fun _ _ => .error "mds not active" }

/-- An environment with a successfully fetched, everywhere-empty inventory. -/
def envEmpty : UpgradeEnv := { versions := .ok {} }

/-! Helper lemmas about the retry primitive and the probe path. -/

/-- Unfolding equation of `retryT` for a positive attempt budget. -/
theorem retryT_succ (f : Nat → Except String Unit × List CephEvent) (start n : Nat) :
    retryT f start (n + 1) =
      match f start with
      | (.ok _, evs) => (.ok (), evs)
      | (.error e, evs) =>
        match n with
        | 0 => (.error e, evs)
        | m + 1 =>
          ((retryT f (start + 1) (m + 1)).fst, evs ++ (retryT f (start + 1) (m + 1)).snd) := by
  rw [retryT]

/-- A successful first attempt ends the retry loop at once, with only that
attempt's events in the trace. -/
theorem retryT_first_ok (f : Nat → Except String Unit × List CephEvent) (start n : Nat)
    (evs : List CephEvent) (hf : f start = (.ok (), evs)) :
    retryT f start (n + 1) = (.ok (), evs) := by
  rw [retryT_succ, hf]

/-- An event of the first attempt is in the trace of the whole retry loop. -/
theorem mem_retryT_of_mem_first (f : Nat → Except String Unit × List CephEvent)
    (start n : Nat) (e : CephEvent) (he : e ∈ (f start).snd) :
    e ∈ (retryT f start (n + 1)).snd := by
  rcases hf : f start with ⟨r, evs⟩
  rw [hf] at he
  rcases r with err | val
  · rcases n with _ | m
    · rw [retryT_succ, hf]
      exact he
    · rw [retryT_succ, hf]
      exact List.mem_append_left _ he
  · rw [retryT_succ, hf]
    exact he

/-- When every attempt fails with one event each, the retry loop returns the
last attempt's error and the trace repeats that event once per attempt. -/
theorem retryT_all_fail (f : Nat → Except String Unit × List CephEvent)
    (err : Nat → String) (ev : CephEvent)
    (h : ∀ i, f i = (.error (err i), [ev])) :
    ∀ n start, retryT f start (n + 1) = (.error (err (start + n)), List.replicate (n + 1) ev) := by
  intro n
  induction n with
  | zero =>
    intro start
    rw [retryT_succ, h start]
    simp
  | succ m ih =>
    intro start
    rw [retryT_succ, h start]
    simp only [ih (start + 1)]
    have harith : start + 1 + m = start + (m + 1) := by omega
    rw [harith]
    simp [List.replicate_succ]

/-- A pre-filter that answers `true` short-circuits `OkToStop` to success,
with no probe and no retry loop after the inventory fetch. -/
theorem okToStop_short_circuit (env : UpgradeEnv) (versions : CephDaemonsVersions)
    (deployment daemonType daemonName : String) (evs : List CephEvent)
    (hv : env.versions = .ok versions)
    (hpre : okToStopPreFilter env versions daemonType = (true, evs)) :
    OkToStop env deployment daemonType daemonName = (.ok (), CephEvent.versionsQuery :: evs) := by
  simp [OkToStop, hv, hpre]

/-- A pre-filter that answers `false` hands `OkToStop` over to the retry loop
around `okToStopDaemon`, under the daemon type's retry budget. -/
theorem okToStop_probe_eq (env : UpgradeEnv) (versions : CephDaemonsVersions)
    (deployment daemonType daemonName : String) (preEvs : List CephEvent)
    (hv : env.versions = .ok versions)
    (hpre : okToStopPreFilter env versions daemonType = (false, preEvs)) :
    OkToStop env deployment daemonType daemonName =
      (match retryT (fun attempt => okToStopDaemon env attempt deployment daemonType daemonName)
          0 (getRetryConfig env.clusterInfo daemonType).fst.toNat with
       | (.ok _, evs2) => (.ok (), CephEvent.versionsQuery :: (preEvs ++ evs2))
       | (.error e, evs2) =>
         (.error (wrapErr ("failed to check if " ++ deployment ++ " was ok to stop") e),
          CephEvent.versionsQuery :: (preEvs ++ evs2))) := by
  rcases hr : retryT (fun attempt => okToStopDaemon env attempt deployment daemonType daemonName)
      0 (getRetryConfig env.clusterInfo daemonType).fst.toNat with ⟨r, evs2⟩
  rcases r with e | val <;> simp [OkToStop, hv, hpre, hr]

/-- C6: if fetching the full version inventory fails, `OkToStop` returns the
propagated error immediately, for every daemon type and instance: the trace
holds only the inventory fetch — no pre-filter query, no retry loop, no
per-instance safety probe. -/
theorem okToStop_inventory_fetch_fails (env : UpgradeEnv)
    (e deployment daemonType daemonName : String)
    (hv : env.versions = .error e) :
    OkToStop env deployment daemonType daemonName =
      (.error (wrapErr "failed to get ceph daemons versions" e), [CephEvent.versionsQuery]) := by
  simp [OkToStop, hv]

/-- Witness for C6 at a concrete environment whose fetch fails, with daemon
type `osd` (whose pre-filter would otherwise query the osd list). -/
theorem okToStop_inventory_fetch_fails_witness :
    OkToStop envFetchFail "rook-ceph-osd-0" "osd" "osd.0" =
      (.error (wrapErr "failed to get ceph daemons versions" "remote query failed"),
       [CephEvent.versionsQuery]) :=
  okToStop_inventory_fetch_fails envFetchFail "remote query failed" "rook-ceph-osd-0" "osd"
    "osd.0" rfl

/-- C9: `getRetryConfig` is a pure total function: `osd` yields the
configured timeout integer-divided by ten seconds with a ten-second delay
(a 120-second timeout yields 12 attempts), `mds` yields 10 attempts with a
15-second delay, and every other daemon type yields 10 attempts with a
60-second delay. -/
theorem getRetryConfig_spec (clusterInfo : ClusterInfo) (daemonType : String)
    (h1 : daemonType ≠ "osd") (h2 : daemonType ≠ "mds") :
    getRetryConfig clusterInfo "osd" =
      (Int.tdiv clusterInfo.osdUpgradeTimeout (10 * timeSecond), 10 * timeSecond) ∧
    getRetryConfig clusterInfo "mds" = (10, 15 * timeSecond) ∧
    getRetryConfig clusterInfo daemonType = (10, 60 * timeSecond) ∧
    getRetryConfig { osdUpgradeTimeout := 120 * timeSecond } "osd" = (12, 10 * timeSecond) := by
  refine ⟨rfl, rfl, ?_, by decide⟩
  simp [getRetryConfig, h1, h2, defaultMaxRetries, defaultRetryDelay]

/-- Witness for C9 at daemon type `rgw` and a 120-second osd upgrade timeout. -/
theorem getRetryConfig_spec_witness :
    getRetryConfig { osdUpgradeTimeout := 120 * timeSecond } "osd" =
      (Int.tdiv (120 * timeSecond) (10 * timeSecond), 10 * timeSecond) ∧
    getRetryConfig { osdUpgradeTimeout := 120 * timeSecond } "mds" = (10, 15 * timeSecond) ∧
    getRetryConfig { osdUpgradeTimeout := 120 * timeSecond } "rgw" = (10, 60 * timeSecond) ∧
    getRetryConfig { osdUpgradeTimeout := 120 * timeSecond } "osd" = (12, 10 * timeSecond) :=
  getRetryConfig_spec { osdUpgradeTimeout := 120 * timeSecond } "rgw" (by decide) (by decide)

/-- C10: for a daemon type whose version mapping in a successfully fetched
inventory is empty, `LeastUptodateDaemonVersion` returns the zero-value
structured version and no error. -/
theorem leastUptodate_empty_mapping (env : UpgradeEnv) (versions : CephDaemonsVersions)
    (daemonType : String) (hv : env.versions = .ok versions)
    (hm : daemonMapEntry versions daemonType = .ok []) :
    LeastUptodateDaemonVersion env daemonType =
      .ok { major := 0, minor := 0, extra := 0 } := by
  simp [LeastUptodateDaemonVersion, hv, hm]

/-- Witness for C10: the everywhere-empty inventory and daemon type `mon`. -/
theorem leastUptodate_empty_mapping_witness :
    LeastUptodateDaemonVersion envEmpty "mon" =
      .ok { major := 0, minor := 0, extra := 0 } :=
  leastUptodate_empty_mapping envEmpty {} "mon" rfl rfl

/-- Outside the six cases of its switch, `daemonMapEntry` answers the
invalid-daemonType error. -/
theorem daemonMapEntry_not_eligible (versions : CephDaemonsVersions) (daemonType : String)
    (h : daemonType ∉ ["mon", "mgr", "mds", "osd", "rgw", "mirror"]) :
    daemonMapEntry versions daemonType = .error ("invalid daemonType " ++ daemonType) := by
  simp only [List.mem_cons, List.mem_singleton, not_or] at h
  obtain ⟨h1, h2, h3, h4, h5, h6⟩ := h
  simp [daemonMapEntry, h1, h2, h3, h4, h5, h6]

/-- Counterexample to C1 as stated: at a concrete, successfully fetched
inventory, the call with daemonType `rbd-mirror` fails with the
unknown-daemon-type error instead of resolving. -/
theorem leastUptodate_rbdMirror_counterexample :
    LeastUptodateDaemonVersion sampleEnv "rbd-mirror" =
      .error (wrapErr "failed to find daemon map entry" "invalid daemonType rbd-mirror") := rfl

/-- C1 (amended): the lookup-eligible daemon types are
`mon, mgr, mds, osd, rgw, mirror` — the last switch case reads `mirror`, not
`rbd-mirror` — and for every daemon type outside this set
`LeastUptodateDaemonVersion` fails with the unknown-daemon-type error
whenever the inventory fetch succeeds. -/
theorem daemonMapEntry_eligible_set (versions : CephDaemonsVersions) (daemonType : String)
    (env : UpgradeEnv) (hv : env.versions = .ok versions) :
    ((∃ m, daemonMapEntry versions daemonType = .ok m) ↔
      daemonType ∈ ["mon", "mgr", "mds", "osd", "rgw", "mirror"]) ∧
    (daemonType ∉ ["mon", "mgr", "mds", "osd", "rgw", "mirror"] →
      LeastUptodateDaemonVersion env daemonType =
        .error (wrapErr "failed to find daemon map entry"
          ("invalid daemonType " ++ daemonType))) := by
  constructor
  · constructor
    · intro hok
      by_contra hmem
      rw [daemonMapEntry_not_eligible versions daemonType hmem] at hok
      exact absurd hok.choose_spec (by simp)
    · intro hmem
      simp only [List.mem_cons, List.not_mem_nil, or_false] at hmem
      rcases hmem with h | h | h | h | h | h <;> subst h <;> exact ⟨_, rfl⟩
  · intro hmem
    simp [LeastUptodateDaemonVersion, hv, daemonMapEntry_not_eligible versions daemonType hmem]

/-- Witness for the amended C1: at the concrete sample inventory, `mon` is
lookup-eligible. -/
theorem daemonMapEntry_eligible_set_witness :
    (∃ m, daemonMapEntry sampleVersions "mon" = .ok m) ↔
      "mon" ∈ ["mon", "mgr", "mds", "osd", "rgw", "mirror"] :=
  (daemonMapEntry_eligible_set sampleVersions "mon" sampleEnv rfl).1

/-- C2: when the mapping of the requested daemon type holds more than one
version string, `LeastUptodateDaemonVersion` returns the parsed form of the
first enumerated entry — the policy's least up-to-date version — a
deterministic function of the inventory. -/
theorem leastUptodate_first_entry (env : UpgradeEnv) (versions : CephDaemonsVersions)
    (daemonType v : String) (c : Int) (rest : List (String × Int)) (ver : CephVersion)
    (hv : env.versions = .ok versions)
    (hm : daemonMapEntry versions daemonType = .ok ((v, c) :: rest))
    (_hmult : rest ≠ [])
    (hp : extractCephVersion v = .ok ver) :
    LeastUptodateDaemonVersion env daemonType = .ok ver := by
  simp [LeastUptodateDaemonVersion, hv, hm, hp]

/-- Witness for C2: on the inventory mapping `mon` to the 13.2.5 string (1
instance) and then the 14.2.0 string (2 instances), the parsed 13.2.5 value
is returned. -/
theorem leastUptodate_first_entry_witness :
    LeastUptodateDaemonVersion sampleEnv "mon" =
      .ok { major := 13, minor := 2, extra := 5 } :=
  leastUptodate_first_entry sampleEnv sampleVersions "mon" monStr1 1 [(monStr2, 2)]
    { major := 13, minor := 2, extra := 5 } rfl rfl (List.cons_ne_nil _ _) rfl

/-- The per-instance probe for daemon type `mon` always issues exactly one
`ok-to-stop` command, whatever the command's outcome. -/
theorem okToStopDaemon_mon_event (env : UpgradeEnv) (attempt : Nat)
    (deployment daemonName : String) :
    (okToStopDaemon env attempt deployment "mon" daemonName).snd =
      [CephEvent.okToStopQuery "mon" daemonName] := by
  have hs : StringInSlice "mon" daemonNoCheck = false := rfl
  rcases h : env.okToStopCmd attempt "mon" daemonName with e | val <;>
    simp [okToStopDaemon, hs, h]

/-- C3: for daemon type `mon`, a fetched inventory whose mon mapping has
exactly one version key with an instance count below 3 makes `OkToStop`
return nil with no retry loop and no per-instance probe (the trace holds
only the inventory fetch); with several version keys, or a single key whose
count is at least 3, the probe path is taken and an `ok-to-stop` command is
issued. -/
theorem okToStop_mon_prefilter (env : UpgradeEnv) (versions : CephDaemonsVersions)
    (deployment daemonName v : String) (c : Int)
    (hv : env.versions = .ok versions) :
    (versions.mon = [(v, c)] → c < 3 →
      OkToStop env deployment "mon" daemonName = (.ok (), [CephEvent.versionsQuery])) ∧
    (1 < versions.mon.length ∨ (versions.mon = [(v, c)] ∧ 3 ≤ c) →
      CephEvent.okToStopQuery "mon" daemonName ∈
        (OkToStop env deployment "mon" daemonName).snd) := by
  constructor
  · intro hmon hc
    have hpre : okToStopPreFilter env versions "mon" = (true, []) := by
      simp [okToStopPreFilter, hmon, hc]
    exact okToStop_short_circuit env versions deployment "mon" daemonName [] hv hpre
  · intro hcase
    have hpre : okToStopPreFilter env versions "mon" = (false, []) := by
      rcases hcase with hlong | ⟨hmon, hge⟩
      · rcases hm : versions.mon with _ | ⟨⟨v1, c1⟩, _ | ⟨p2, tail2⟩⟩
        · rw [hm] at hlong
          simp at hlong
        · rw [hm] at hlong
          simp at hlong
        · simp [okToStopPreFilter, hm]
      · simp [okToStopPreFilter, hmon]
        omega
    rw [okToStop_probe_eq env versions deployment "mon" daemonName [] hv hpre]
    have hbudget : (getRetryConfig env.clusterInfo "mon").fst.toNat = 9 + 1 := rfl
    rw [hbudget]
    have hmem : CephEvent.okToStopQuery "mon" daemonName ∈
        (retryT (fun attempt => okToStopDaemon env attempt deployment "mon" daemonName)
          0 (9 + 1)).snd := by
      apply mem_retryT_of_mem_first
      rw [okToStopDaemon_mon_event]
      exact List.mem_singleton.mpr rfl
    rcases hr : retryT (fun attempt => okToStopDaemon env attempt deployment "mon" daemonName)
        0 (9 + 1) with ⟨r, evs2⟩
    rw [hr] at hmem
    rcases r with e | val <;> simp <;> exact hmem

/-- Witness for C3: a single mon version held by 2 monitors short-circuits
`OkToStop` to success with only the inventory fetch in the trace. -/
theorem okToStop_mon_prefilter_witness :
    OkToStop envMonSmall "rook-ceph-mon-a" "mon" "a" = (.ok (), [CephEvent.versionsQuery]) :=
  (okToStop_mon_prefilter envMonSmall { mon := [(monStr1, 2)] } "rook-ceph-mon-a" "a"
    monStr1 2 rfl).1 rfl (by decide)

/-- C4: `osdDoNothing` (the spec's ShouldSkipOSDCheck) answers `true` exactly
when the osd list query succeeds and either fewer than 3 osds are reported,
or at least 3 are reported and `allOSDsSameHost` succeeds with `true`; a
failed osd list query answers `false` (the strict check still runs), and
every remaining case answers `false`. -/
theorem osdDoNothing_spec (env : UpgradeEnv) :
    ((osdDoNothing env).fst = true ↔
      ∃ osds, env.osdList = .ok osds ∧
        (osds.length < 3 ∨ (3 ≤ osds.length ∧ (allOSDsSameHost env).fst = .ok true))) ∧
    (∀ e, env.osdList = .error e → (osdDoNothing env).fst = false) := by
  constructor
  · constructor
    · intro h
      rcases ho : env.osdList with e | osds
      · rw [osdDoNothing] at h
        simp [ho] at h
      · refine ⟨osds, rfl, ?_⟩
        by_cases hlen : osds.length < 3
        · exact Or.inl hlen
        · right
          refine ⟨by omega, ?_⟩
          rcases ha : allOSDsSameHost env with ⟨r, evs⟩
          rw [osdDoNothing] at h
          simp [ho, hlen, ha] at h
          rcases r with e | aio
          · simp at h
          · simp at h
            simp [h]
    · rintro ⟨osds, ho, hcase⟩
      rcases hcase with hlen | ⟨hlen, haio⟩
      · simp [osdDoNothing, ho, hlen]
      · have hlen2 : ¬ osds.length < 3 := by omega
        rcases ha : allOSDsSameHost env with ⟨r, evs⟩
        rw [ha] at haio
        simp at haio
        subst haio
        simp [osdDoNothing, ho, ha, hlen2]
  · intro e ho
    simp [osdDoNothing, ho]

/-- C5: for every daemon type in the no-check set `{mgr, rgw, rbd-mirror,
nfs}`, `OkToStop` returns nil whenever the inventory fetch succeeds, and its
trace holds no per-instance `ok-to-stop` command at all. -/
theorem okToStop_nocheck (env : UpgradeEnv) (versions : CephDaemonsVersions)
    (deployment daemonType daemonName : String)
    (hd : daemonType ∈ ["mgr", "rgw", "rbd-mirror", "nfs"])
    (hv : env.versions = .ok versions) :
    OkToStop env deployment daemonType daemonName = (.ok (), [CephEvent.versionsQuery]) ∧
    ∀ dt dn, CephEvent.okToStopQuery dt dn ∉
      (OkToStop env deployment daemonType daemonName).snd := by
  have key : ∀ dt, (dt == "mon") = false → (dt == "osd") = false →
      StringInSlice dt daemonNoCheck = true →
      OkToStop env deployment dt daemonName = (.ok (), [CephEvent.versionsQuery]) := by
    intro dt h1 h2 h3
    have hpre : okToStopPreFilter env versions dt = (false, []) := by
      simp [okToStopPreFilter, h1, h2]
    have hf : okToStopDaemon env 0 deployment dt daemonName = (.ok (), []) := by
      simp [okToStopDaemon, h3]
    have hbudget : (getRetryConfig env.clusterInfo dt).fst.toNat = 9 + 1 := by
      simp only [getRetryConfig, h2, Bool.false_eq_true, if_false]
      split <;> rfl
    rw [okToStop_probe_eq env versions deployment dt daemonName [] hv hpre, hbudget,
      retryT_first_ok _ 0 9 [] hf]
    rfl
  have heq : OkToStop env deployment daemonType daemonName =
      (.ok (), [CephEvent.versionsQuery]) := by
    simp only [List.mem_cons, List.not_mem_nil, or_false] at hd
    rcases hd with h | h | h | h <;> subst h <;> exact key _ rfl rfl rfl
  refine ⟨heq, ?_⟩
  intro dt dn
  rw [heq]
  simp

/-- Witness for C5 at daemon type `mgr` and the concrete sample inventory. -/
theorem okToStop_nocheck_witness :
    OkToStop sampleEnv "rook-ceph-mgr-a" "mgr" "a" = (.ok (), [CephEvent.versionsQuery]) :=
  (okToStop_nocheck sampleEnv sampleVersions "rook-ceph-mgr-a" "mgr" "a" (by decide) rfl).1

/-- C7: when its underlying queries succeed and the tree is populated,
`allOSDsSameHost` returns `true` exactly when the tree has exactly one node
of type `host` whose direct child count equals the total osd count minus the
stray count; it fails when the tree has no host node at all, and returns
`false` whenever there is more than one host node. -/
theorem allOSDsSameHost_spec (env : UpgradeEnv) (tree : OsdTree) (ns : List OsdTreeNode)
    (osds : List Int) (ht : env.hostTree = .ok tree) (ho : env.osdList = .ok osds)
    (hn : tree.nodes = some ns) :
    ((allOSDsSameHost env).fst = .ok true ↔
      ∃ h, ns.filter (fun t => t.typ == "host") = [h] ∧
        (h.children.length : Int) = (osds.length : Int) - (tree.stray.length : Int)) ∧
    (ns.filter (fun t => t.typ == "host") = [] →
      (allOSDsSameHost env).fst = .error "no host in crush map yet?") ∧
    (1 < (ns.filter (fun t => t.typ == "host")).length →
      (allOSDsSameHost env).fst = .ok false) := by
  have hbuild : buildHostListFromTree tree =
      .ok { nodes := some (ns.filter (fun t => t.typ == "host")), stray := [] } := by
    simp [buildHostListFromTree, hn]
  rcases hf : ns.filter (fun t => t.typ == "host") with _ | ⟨h1, _ | ⟨h2, t2⟩⟩
  · refine ⟨?_, ?_, ?_⟩
    · simp [allOSDsSameHost, ht, ho, hbuild, OsdTree.nodeList, hf]
    · intro _
      simp [allOSDsSameHost, ht, ho, hbuild, OsdTree.nodeList, hf]
    · intro hlen
      rw [hf] at hlen
      simp at hlen
  · by_cases hc : (h1.children.length : Int) = (osds.length : Int) - (tree.stray.length : Int)
    · refine ⟨?_, ?_, ?_⟩
      · simp only [allOSDsSameHost, ht, ho, hbuild, OsdTree.nodeList, hf]
        simp [hc]
      · intro hnil
        rw [hf] at hnil
        simp at hnil
      · intro hlen
        rw [hf] at hlen
        simp at hlen
    · refine ⟨?_, ?_, ?_⟩
      · simp only [allOSDsSameHost, ht, ho, hbuild, OsdTree.nodeList, hf]
        simp [hc]
      · intro hnil
        rw [hf] at hnil
        simp at hnil
      · intro hlen
        rw [hf] at hlen
        simp at hlen
  · refine ⟨?_, ?_, ?_⟩
    · simp only [allOSDsSameHost, ht, ho, hbuild, OsdTree.nodeList, hf]
      constructor
      · intro habs
        simp at habs
      · rintro ⟨h, hh, _⟩
        rw [List.cons_eq_cons] at hh
        exact absurd hh.2 (List.cons_ne_nil _ _)
    · intro hnil
      rw [hf] at hnil
      simp at hnil
    · intro _
      simp [allOSDsSameHost, ht, ho, hbuild, OsdTree.nodeList, hf]

/-- Witness for C7: three osds under a single host with no strays are
recognized as an all-in-one deployment. -/
theorem allOSDsSameHost_spec_witness : (allOSDsSameHost envOsd).fst = .ok true :=
  (allOSDsSameHost_spec envOsd sampleTree [sampleHost] [0, 1, 2] rfl rfl rfl).1.mpr
    ⟨sampleHost, by decide, by decide⟩

/-- C8: `OkToContinue` returns nil immediately, with an empty trace, for
every daemon type other than `mds`; for `mds` it polls the
filesystem-health probe on the name obtained by stripping `rook-ceph-mds-`
from the deployment name, once per attempt of the mds retry budget, and when
every attempt reports unhealthy it returns the last error wrapped in a
message naming the deployment. -/
theorem okToContinue_spec (env : UpgradeEnv) (deployment daemonType daemonName : String)
    (err : Nat → String)
    (hfail : ∀ i, env.mdsProbe i (findFSName deployment) = .error (err i))
    (hd : daemonType ≠ "mds") :
    OkToContinue env deployment daemonType daemonName = (.ok (), []) ∧
    OkToContinue env deployment "mds" daemonName =
      (.error (wrapErr ("failed to check if " ++ deployment ++ " was ok to continue") (err 9)),
       List.replicate 10 (CephEvent.fsProbe (findFSName deployment))) := by
  constructor
  · simp [OkToContinue, hd]
  · have hstep : ∀ i, mdsProbeStep env deployment i =
        (.error (err i), [CephEvent.fsProbe (findFSName deployment)]) := by
      intro i
      simp [mdsProbeStep, hfail i]
    have hret := retryT_all_fail (mdsProbeStep env deployment) err
      (CephEvent.fsProbe (findFSName deployment)) hstep 9 0
    simp only [OkToContinue, okToContinueMDSDaemon]
    rw [show (getRetryConfig env.clusterInfo "mds").fst.toNat = 9 + 1 from rfl]
    rw [hret]
    simp

/-- Witness for C8: a probe that never turns healthy makes the mds
continuation check fail after ten polls of the stripped filesystem name. -/
theorem okToContinue_spec_witness :
    OkToContinue envMds "rook-ceph-mds-myfs" "rgw" "a" = (.ok (), []) ∧
    OkToContinue envMds "rook-ceph-mds-myfs" "mds" "a" =
      (.error (wrapErr "failed to check if rook-ceph-mds-myfs was ok to continue"
        "mds not active"),
       List.replicate 10 (CephEvent.fsProbe (findFSName "rook-ceph-mds-myfs"))) :=
  okToContinue_spec envMds "rook-ceph-mds-myfs" "rgw" "a" (fun _ => "mds not active")
    (fun _ => rfl) (by decide)
